import Mathlib

/-!
Shallow embedding of the community-platform message-send request handler
(the `action` route with `validateRequest` and `getTenantSettings`) and of
the research-update form controller (`numberOfImageInputsAvailable` and the
`onSubmit` submit guard), together with theorems checking the specification
against these definitions.

The handler is modelled as a pure function over an environment holding the
request data, the authenticated user, the database tables (profiles,
messages, tenant settings), the email-lookup RPCs and the outcome of the
external email-provider call. Thrown exceptions are modelled with `Except`,
carrying the database and trace state at the throw site; the outer
`try/catch` maps any thrown error to a 500 response. An event trace records
the order of the side-effecting steps after the rate-limit check.
-/

namespace MessageAction

/-- A row of the `profiles` table: `id`, `username`, optional `auth_id`. -/
structure Profile where
  id : Nat
  username : String
  auth_id : Option String
deriving Repr, DecidableEq

/-- A row of the `messages` table. `created_at` is a server-assigned
timestamp in milliseconds. -/
structure Message where
  sender_id : Nat
  receiver_id : Nat
  message : String
  tenant_id : String
  created_at : Int
deriving Repr, DecidableEq

/-- A stored `tenant_settings` row; each column may be null. -/
structure TenantRow where
  site_name : Option String
  site_url : Option String
  message_sign_off : Option String
  email_from : Option String
  site_image : Option String
deriving Repr, DecidableEq

/-- The resolved tenant settings returned by `getTenantSettings`. -/
structure TenantSettings where
  siteName : String
  siteUrl : String
  messageSignOff : String
  emailFrom : String
  siteImage : String
deriving Repr, DecidableEq

/-- The parsed form data: `formData.get` yields null for a missing key,
modelled as `none`. -/
structure RequestData where
  toUsername : Option String
  message : Option String
  name : Option String
deriving Repr, DecidableEq

/-- The authenticated user: `user_metadata.username` and optional `email`. -/
structure User where
  username : String
  email : Option String
deriving Repr, DecidableEq

/-- JavaScript falsiness of a nullable string: null/undefined and the empty
string are falsy (`!x` is true exactly then). -/
def falsy : Option String → Bool
  | none => true
  | some s => s == ""

/-- `validateRequest(request, user, data)`: returns the status and
statusText of the first failing check, or `none` when the request is
valid. Checks run in source order: user, method, `to`, `message`,
sender email. -/
def validateRequest (method : String) (user : Option User) (data : RequestData) :
    Option (Nat × String) :=
  match user with
  | none => some (401, "unauthorized")
  | some u =>
    if method ≠ "POST" then some (405, "method not allowed")
    else if falsy data.toUsername then some (400, "to is required")
    else if falsy data.message then some (400, "message is required")
    else if falsy u.email then some (400, "Unable to get messenger email address")
    else none

/-- JavaScript `x || d` on a nullable string `x`: the default is used when
`x` is null or the empty string. -/
def orDefault (v : Option String) (d : String) : String :=
  match v with
  | none => d
  | some s => if s = "" then d else s

/-- `getTenantSettings(client)`: reads the single `tenant_settings` row
(`none` when no row is configured) and applies the hardcoded fallback
default for each unset column via `||`. -/
def getTenantSettings (row : Option TenantRow) : TenantSettings :=
  { siteName := orDefault (row.bind TenantRow.site_name) "The Community Platform"
    siteUrl := orDefault (row.bind TenantRow.site_url) "https://community.preciousplastic.com"
    messageSignOff := orDefault (row.bind TenantRow.message_sign_off) "One Army"
    emailFrom := orDefault (row.bind TenantRow.email_from) "hello@onearmy.earth"
    siteImage := orDefault (row.bind TenantRow.site_image)
      "https://community.preciousplastic.com/assets/img/one-army-logo.png" }

/-- The side-effecting steps of the handler after the rate-limit check,
recorded in order. -/
inductive Event where
  | fetchSettings
  | insertMessage
  | emailLookupById
  | emailLookupByUsername
  | renderAndSend
deriving Repr, DecidableEq

/-- The environment of one request: request fields, authenticated user,
database tables, email RPC results and the email provider's outcome. -/
structure Env where
  method : String
  data : RequestData
  user : Option User
  profiles : List Profile
  messages : List Message
  tenantRow : Option TenantRow
  emailById : String → List String
  emailByUsername : String → List String
  countError : Bool
  insertError : Bool
  sendError : Option String
  now : Int
  tenantId : String

/-- The observable result of the handler: HTTP status, statusText, the
final `messages` table and the trace of post-rate-limit steps. -/
structure Outcome where
  status : Nat
  statusText : String
  messages : List Message
  trace : List Event
deriving Repr, DecidableEq

/-- The user-facing spam-protection statusText of the 429 rate-limit
response. -/
def spamStatusText : String :=
  "You've contacted a lot of people today! So to protect the platform from spam we haven't sent this message."

/-- Count of messages sent by `senderId` with `created_at` strictly greater
than `now` minus 24 hours (the `.gt('created_at', yesterday)` count query). -/
def messageCount (msgs : List Message) (senderId : Nat) (now : Int) : Nat :=
  (msgs.filter fun m =>
    m.sender_id == senderId && decide (now - 86400000 < m.created_at)).length

/-- The recipient email RPC: `get_user_email_by_id` when the recipient's
legacy `auth_id` is truthy, else `get_user_email_by_username`. -/
def emailRowsFor (env : Env) (toAuthId : Option String) : List String :=
  if falsy toAuthId then env.emailByUsername (env.data.toUsername.getD "")
  else env.emailById (toAuthId.getD "")

/-- The body of the `try` block of `action`. A `.error` result is a thrown
exception carrying the `messages` table and the trace at the throw site;
`.ok` is a returned response. Mirrors the source order: validation, profile
lookups (dereferencing an empty lookup throws), the 24-hour count and
rate-limit check, `getTenantSettings`, the message insert, the recipient
email RPC (dereferencing an empty result throws), and the provider send. -/
def actionBody (env : Env) : Except (List Message × List Event) Outcome :=
  match validateRequest env.method env.user env.data with
  | some (st, sx) => .ok ⟨st, sx, env.messages, []⟩
  | none =>
    match env.user with
    -- unreachable: a valid request always has an authenticated user
    | none => .error (env.messages, [])
    | some u =>
      let userProfile := env.profiles.filter fun p => p.username == u.username
      let recipientProfile := env.profiles.filter fun p => p.username == env.data.toUsername.getD ""
      match userProfile.head?, recipientProfile.head? with
      | some sender, some recipient =>
        if env.countError then .error (env.messages, [])
        else if messageCount env.messages sender.id env.now ≥ 20 then
          .ok ⟨429, spamStatusText, env.messages, []⟩
        else
          let _settings := getTenantSettings env.tenantRow
          let trace1 := [Event.fetchSettings]
          if env.insertError then .error (env.messages, trace1)
          else
            let newMessage : Message :=
              ⟨sender.id, recipient.id, env.data.message.getD "", env.tenantId, env.now⟩
            let messages1 := env.messages ++ [newMessage]
            let trace2 := trace1 ++ [Event.insertMessage]
            let trace3 := trace2 ++
              [if falsy recipient.auth_id then Event.emailLookupByUsername
               else Event.emailLookupById]
            match (emailRowsFor env recipient.auth_id).head? with
            | none => .error (messages1, trace3)
            | some _receiverEmail =>
              let trace4 := trace3 ++ [Event.renderAndSend]
              match env.sendError with
              | some err => .ok ⟨429, err, messages1, trace4⟩
              | none => .ok ⟨201, "", messages1, trace4⟩
      | _, _ => .error (env.messages, [])

/-- The full `action` handler: the `catch` maps any thrown exception to a
500 "Error sending message" response, keeping the database state reached
before the throw. -/
def action (env : Env) : Outcome :=
  match actionBody env with
  | .ok o => o
  | .error (msgs, tr) => ⟨500, "Error sending message", msgs, tr⟩

end MessageAction

namespace ResearchForm

/-- The count of currently non-empty image entries of a form state whose
`images` field may itself be absent: each entry is non-empty when it is not
null (`!!x`). -/
def nonEmptyImages {α : Type} (images : Option (List (Option α))) : Nat :=
  match images with
  | none => 0
  | some imgs => (imgs.filter fun x => x.isSome).length

/-- `numberOfImageInputsAvailable`: when `values.images` is truthy,
`Math.min(images.filter(x => !!x).length + 1, 10)`; otherwise 1. -/
def numberOfImageInputsAvailable {α : Type} (images : Option (List (Option α))) : Nat :=
  match images with
  | some imgs => min ((imgs.filter fun x => x.isSome).length + 1) 10
  | none => 1

/-- The state of the research-update form controller that `onSubmit`
touches: the saving flag, the intentional-navigation flag, the error
banner, the number of remote upsert calls made so far, whether confetti
fired, and the navigation target scheduled after a successful save. -/
structure FormState where
  isSaving : Bool
  intentionalNavigation : Bool
  saveErrorMessage : Option String
  upsertCalls : Nat
  confettiFired : Bool
  navigatedTo : Option (String × Nat)
deriving Repr, DecidableEq

/-- The context of one submit: the parent research slug and the outcome of
`researchService.upsertUpdate` (an error message, or a result that is
either null or carries the saved update's id). -/
structure SubmitEnv where
  researchSlug : String
  upsertResult : Except String (Option Nat)
deriving Repr

/-- The `onSubmit` handler: a no-op while `isSaving` is set; otherwise it
sets the saving and intentional-navigation flags, clears the error banner,
makes the remote upsert call, fires confetti on a non-draft success,
schedules navigation when the result is truthy, and on a thrown error
records the message and clears the saving flag. -/
def onSubmit (s : FormState) (isDraft : Bool) (env : SubmitEnv) : FormState :=
  if s.isSaving then s
  else
    let s1 : FormState :=
      { s with isSaving := true, intentionalNavigation := true,
               saveErrorMessage := none, upsertCalls := s.upsertCalls + 1 }
    match env.upsertResult with
    | .error e => { s1 with saveErrorMessage := some e, isSaving := false }
    | .ok res =>
      let s2 := if isDraft then s1 else { s1 with confettiFired := true }
      match res with
      | some rid => { s2 with navigatedTo := some (env.researchSlug, rid) }
      | none => s2

end ResearchForm

namespace MessageAction

/-- A concrete happy-path environment: alice sends bob a message; bob has a
legacy auth id; no prior messages; the provider succeeds. -/
def baseEnv : Env :=
  { method := "POST"
    data := ⟨some "bob", some "hello there", none⟩
    user := some ⟨"alice", some "alice@example.com"⟩
    profiles := [⟨1, "alice", none⟩, ⟨2, "bob", some "bob-auth"⟩]
    messages := []
    tenantRow := none
    emailById := fun _ => ["bob@example.com"]
    emailByUsername := fun _ => ["bob@example.com"]
    countError := false
    insertError := false
    sendError := none
    now := 1000000000
    tenantId := "tenant-1" }

/-- `baseEnv` with 20 messages already sent by alice inside the window. -/
def envRateLimited : Env :=
  { baseEnv with messages := List.replicate 20 ⟨1, 2, "m", "tenant-1", 999999999⟩ }

/-- `baseEnv` with 19 messages already sent by alice inside the window. -/
def envNineteen : Env :=
  { baseEnv with messages := List.replicate 19 ⟨1, 2, "m", "tenant-1", 999999999⟩ }

/-- `baseEnv` with a failing email provider. -/
def envSendFails : Env :=
  { baseEnv with sendError := some "provider unavailable" }

/-- `baseEnv` with a recipient username matching no profile row. -/
def envNoRecipient : Env :=
  { baseEnv with data := ⟨some "carol", some "hello there", none⟩ }

/-- `baseEnv` with no authenticated user. -/
def envNoUser : Env :=
  { baseEnv with user := none }

/-- The step order asserted by the specification sentence of claim C6:
insert the message row, then fetch tenant settings, then the recipient
email lookup, then render and dispatch. Stated from the claim's words, to
be compared with the trace the code produces. -/
def claimedOrderC6 (tr : List Event) : Prop :=
  tr = [Event.insertMessage, Event.fetchSettings, Event.emailLookupById,
        Event.renderAndSend] ∨
  tr = [Event.insertMessage, Event.fetchSettings, Event.emailLookupByUsername,
        Event.renderAndSend]

end MessageAction

namespace MessageAction

theorem messageCount_append_own (msgs : List Message) (senderId : Nat) (now : Int)
    (m : Message) (h1 : m.sender_id = senderId) (h2 : m.created_at = now) :
    messageCount (msgs ++ [m]) senderId now = messageCount msgs senderId now + 1 := by
  have hlt : now - 86400000 < m.created_at := by omega
  simp [messageCount, List.filter_append, h1, hlt]

/-- C1: for every valid request, when the sender's message count in the
trailing 24 hours is at least 20, the handler responds 429 with the
spam-protection text and the `messages` table is unchanged (no insert). -/
theorem c1_rate_limit_rejects_without_insert (env : Env) (u : User)
    (sender recipient : Profile)
    (hval : validateRequest env.method env.user env.data = none)
    (hu : env.user = some u)
    (hs : (env.profiles.filter fun p => p.username == u.username).head? = some sender)
    (hr : (env.profiles.filter fun p =>
      p.username == env.data.toUsername.getD "").head? = some recipient)
    (hce : env.countError = false)
    (hcount : 20 ≤ messageCount env.messages sender.id env.now) :
    action env = ⟨429, spamStatusText, env.messages, []⟩ := by
  rw [hu] at hval
  simp [action, actionBody, hval, hu, hs, hr, hce, hcount]

/-- C1 witness: a sender with 20 messages inside the window is rejected
with 429 and no insert. -/
theorem c1_witness :
    action envRateLimited = ⟨429, spamStatusText, envRateLimited.messages, []⟩ :=
  c1_rate_limit_rejects_without_insert envRateLimited
    ⟨"alice", some "alice@example.com"⟩ ⟨1, "alice", none⟩ ⟨2, "bob", some "bob-auth"⟩
    (by decide) (by decide) (by decide) (by decide) (by decide) (by decide)

/-- C2: validation is fail-fast in source order — no user gives 401
"unauthorized"; then a non-POST method gives 405 "method not allowed";
then a missing `to` gives 400 "to is required"; then a missing `message`
gives 400 "message is required"; then a user without an email gives 400
"Unable to get messenger email address". Each failing response leaves the
`messages` table unchanged, and each status is only reachable when every
earlier check passed. -/
theorem c2_validation_fail_fast (env : Env) :
    (env.user = none → action env = ⟨401, "unauthorized", env.messages, []⟩) ∧
    (∀ u : User, env.user = some u →
      (env.method ≠ "POST" → action env = ⟨405, "method not allowed", env.messages, []⟩) ∧
      (env.method = "POST" →
        (falsy env.data.toUsername = true →
          action env = ⟨400, "to is required", env.messages, []⟩) ∧
        (falsy env.data.toUsername = false →
          (falsy env.data.message = true →
            action env = ⟨400, "message is required", env.messages, []⟩) ∧
          (falsy env.data.message = false → falsy u.email = true →
            action env = ⟨400, "Unable to get messenger email address", env.messages, []⟩)))) := by
  refine ⟨fun h => by simp [action, actionBody, validateRequest, h], ?_⟩
  intro u hu
  refine ⟨fun hm => by simp [action, actionBody, validateRequest, hu, hm], ?_⟩
  intro hm
  refine ⟨fun hto => by simp [action, actionBody, validateRequest, hu, hm, hto], ?_⟩
  intro hto
  refine ⟨fun hmsg => by simp [action, actionBody, validateRequest, hu, hm, hto, hmsg], ?_⟩
  intro hmsg hmail
  simp [action, actionBody, validateRequest, hu, hm, hto, hmsg, hmail]

/-- C2 witness: an unauthenticated request is answered 401. -/
theorem c2_witness :
    action envNoUser = ⟨401, "unauthorized", envNoUser.messages, []⟩ :=
  (c2_validation_fail_fast envNoUser).1 (by decide)

/-- C3: when the message row has been inserted and the provider call then
reports an error, the handler responds 429 carrying the provider's error,
the inserted row is kept, and the sender's in-window message count has
increased by one. -/
theorem c3_email_failure_keeps_insert (env : Env) (u : User)
    (sender recipient : Profile) (err em : String)
    (hval : validateRequest env.method env.user env.data = none)
    (hu : env.user = some u)
    (hs : (env.profiles.filter fun p => p.username == u.username).head? = some sender)
    (hr : (env.profiles.filter fun p =>
      p.username == env.data.toUsername.getD "").head? = some recipient)
    (hce : env.countError = false)
    (hcount : messageCount env.messages sender.id env.now < 20)
    (hins : env.insertError = false)
    (hem : (emailRowsFor env recipient.auth_id).head? = some em)
    (hsend : env.sendError = some err) :
    (action env).status = 429 ∧ (action env).statusText = err ∧
    (action env).messages = env.messages ++
      [⟨sender.id, recipient.id, env.data.message.getD "", env.tenantId, env.now⟩] ∧
    messageCount (action env).messages sender.id env.now =
      messageCount env.messages sender.id env.now + 1 := by
  rw [hu] at hval
  have hnot : ¬ 20 ≤ messageCount env.messages sender.id env.now := by omega
  have hact : (action env).messages = env.messages ++
      [⟨sender.id, recipient.id, env.data.message.getD "", env.tenantId, env.now⟩] := by
    simp [action, actionBody, hval, hu, hs, hr, hce, hnot, hins, hem, hsend]
  refine ⟨?_, ?_, hact, ?_⟩
  · simp [action, actionBody, hval, hu, hs, hr, hce, hnot, hins, hem, hsend]
  · simp [action, actionBody, hval, hu, hs, hr, hce, hnot, hins, hem, hsend]
  · rw [hact]
    exact messageCount_append_own env.messages sender.id env.now _ rfl rfl

/-- C3 witness: with a failing provider, the response is 429 with the
provider's error and the row stays inserted. -/
theorem c3_witness :
    (action envSendFails).status = 429 ∧
    (action envSendFails).statusText = "provider unavailable" ∧
    (action envSendFails).messages = envSendFails.messages ++
      [⟨1, 2, "hello there", "tenant-1", 1000000000⟩] ∧
    messageCount (action envSendFails).messages 1 1000000000 =
      messageCount envSendFails.messages 1 1000000000 + 1 :=
  c3_email_failure_keeps_insert envSendFails ⟨"alice", some "alice@example.com"⟩
    ⟨1, "alice", none⟩ ⟨2, "bob", some "bob-auth"⟩ "provider unavailable" "bob@example.com"
    (by decide) (by decide) (by decide) (by decide) (by decide) (by decide)
    (by decide) (by decide) (by decide)

/-- C4: a valid request from a sender whose in-window message count is 19
is not rate-limited — the row is inserted, the count becomes 20, and when
the provider succeeds the handler responds 201. -/
theorem c4_count_nineteen_succeeds (env : Env) (u : User)
    (sender recipient : Profile) (em : String)
    (hval : validateRequest env.method env.user env.data = none)
    (hu : env.user = some u)
    (hs : (env.profiles.filter fun p => p.username == u.username).head? = some sender)
    (hr : (env.profiles.filter fun p =>
      p.username == env.data.toUsername.getD "").head? = some recipient)
    (hce : env.countError = false)
    (hcount : messageCount env.messages sender.id env.now = 19)
    (hins : env.insertError = false)
    (hem : (emailRowsFor env recipient.auth_id).head? = some em)
    (hsend : env.sendError = none) :
    (action env).status = 201 ∧
    (action env).messages = env.messages ++
      [⟨sender.id, recipient.id, env.data.message.getD "", env.tenantId, env.now⟩] ∧
    messageCount (action env).messages sender.id env.now = 20 := by
  rw [hu] at hval
  have hnot : ¬ 20 ≤ messageCount env.messages sender.id env.now := by omega
  have hact : (action env).messages = env.messages ++
      [⟨sender.id, recipient.id, env.data.message.getD "", env.tenantId, env.now⟩] := by
    simp [action, actionBody, hval, hu, hs, hr, hce, hnot, hins, hem, hsend]
  refine ⟨?_, hact, ?_⟩
  · simp [action, actionBody, hval, hu, hs, hr, hce, hnot, hins, hem, hsend]
  · rw [hact, messageCount_append_own env.messages sender.id env.now _ rfl rfl, hcount]

/-- C4 witness: with exactly 19 prior in-window messages the send goes
through and the count reaches 20. -/
theorem c4_witness :
    (action envNineteen).status = 201 ∧
    (action envNineteen).messages = envNineteen.messages ++
      [⟨1, 2, "hello there", "tenant-1", 1000000000⟩] ∧
    messageCount (action envNineteen).messages 1 1000000000 = 20 :=
  c4_count_nineteen_succeeds envNineteen ⟨"alice", some "alice@example.com"⟩
    ⟨1, "alice", none⟩ ⟨2, "bob", some "bob-auth"⟩ "bob@example.com"
    (by decide) (by decide) (by decide) (by decide) (by decide) (by decide)
    (by decide) (by decide) (by decide)

/-- C6 counterexample: on a concrete fully successful request the code's
step order is fetch settings, insert, email lookup, dispatch — not the
claimed insert-then-fetch-settings order. -/
theorem c6_counterexample :
    (action baseEnv).status = 201 ∧
    (action baseEnv).trace =
      [Event.fetchSettings, Event.insertMessage, Event.emailLookupById,
       Event.renderAndSend] ∧
    ¬ claimedOrderC6 (action baseEnv).trace := by
  refine ⟨by decide, by decide, ?_⟩
  unfold claimedOrderC6
  decide

/-- C6 amended: for every request that passes validation and the
rate-limit check and completes the remaining steps, the handler fetches
tenant settings, then inserts the message row, then resolves the
recipient's notification email (by legacy-id lookup when the recipient
profile has a truthy legacy auth id, else by username lookup), then
renders and dispatches the email. -/
theorem c6_step_order (env : Env) (u : User)
    (sender recipient : Profile) (em : String)
    (hval : validateRequest env.method env.user env.data = none)
    (hu : env.user = some u)
    (hs : (env.profiles.filter fun p => p.username == u.username).head? = some sender)
    (hr : (env.profiles.filter fun p =>
      p.username == env.data.toUsername.getD "").head? = some recipient)
    (hce : env.countError = false)
    (hcount : messageCount env.messages sender.id env.now < 20)
    (hins : env.insertError = false)
    (hem : (emailRowsFor env recipient.auth_id).head? = some em) :
    (action env).trace =
      [Event.fetchSettings, Event.insertMessage,
       if falsy recipient.auth_id then Event.emailLookupByUsername
       else Event.emailLookupById,
       Event.renderAndSend] := by
  rw [hu] at hval
  have hnot : ¬ 20 ≤ messageCount env.messages sender.id env.now := by omega
  cases hsend : env.sendError <;>
    simp [action, actionBody, hval, hu, hs, hr, hce, hnot, hins, hem, hsend]

/-- C6 amended witness: on the concrete happy-path environment the trace
is settings, insert, lookup by id, dispatch. -/
theorem c6_witness :
    (action baseEnv).trace =
      [Event.fetchSettings, Event.insertMessage, Event.emailLookupById,
       Event.renderAndSend] :=
  c6_step_order baseEnv ⟨"alice", some "alice@example.com"⟩
    ⟨1, "alice", none⟩ ⟨2, "bob", some "bob-auth"⟩ "bob@example.com"
    (by decide) (by decide) (by decide) (by decide) (by decide) (by decide)
    (by decide) (by decide)

/-- C9: for an otherwise valid request whose `to` username matches no
profile row (or whose sender has no profile row), no specific 4xx is
returned — the dereference of the empty query result throws, the
exception is caught, and the response is 500 "Error sending message" with
no row inserted. -/
theorem c9_missing_profile_gives_500 (env : Env) (u : User)
    (hval : validateRequest env.method env.user env.data = none)
    (hu : env.user = some u)
    (hmiss : (env.profiles.filter fun p => p.username == u.username).head? = none ∨
      (env.profiles.filter fun p =>
        p.username == env.data.toUsername.getD "").head? = none) :
    (action env).status = 500 ∧
    (action env).statusText = "Error sending message" ∧
    (action env).messages = env.messages := by
  rw [hu] at hval
  rcases hmiss with h | h
  · simp [action, actionBody, hval, hu, h]
  · rcases hs : (env.profiles.filter fun p => p.username == u.username).head? with _ | sp <;>
      simp [action, actionBody, hval, hu, h, hs]

/-- C9 witness: sending to an unknown username yields 500 "Error sending
message" and no insert. -/
theorem c9_witness :
    (action envNoRecipient).status = 500 ∧
    (action envNoRecipient).statusText = "Error sending message" ∧
    (action envNoRecipient).messages = envNoRecipient.messages :=
  c9_missing_profile_gives_500 envNoRecipient ⟨"alice", some "alice@example.com"⟩
    (by decide) (by decide) (Or.inr (by decide))

/-- C5: a tenant-settings lookup with no configured row yields exactly the
five documented defaults, and each default is applied field-by-field when
the corresponding stored field is unset. -/
theorem c5_tenant_settings_defaults :
    getTenantSettings none =
      ⟨"The Community Platform", "https://community.preciousplastic.com", "One Army",
       "hello@onearmy.earth",
       "https://community.preciousplastic.com/assets/img/one-army-logo.png"⟩ ∧
    ∀ row : TenantRow,
      (row.site_name = none →
        (getTenantSettings (some row)).siteName = "The Community Platform") ∧
      (row.site_url = none →
        (getTenantSettings (some row)).siteUrl = "https://community.preciousplastic.com") ∧
      (row.message_sign_off = none →
        (getTenantSettings (some row)).messageSignOff = "One Army") ∧
      (row.email_from = none →
        (getTenantSettings (some row)).emailFrom = "hello@onearmy.earth") ∧
      (row.site_image = none →
        (getTenantSettings (some row)).siteImage =
          "https://community.preciousplastic.com/assets/img/one-army-logo.png") := by
  refine ⟨rfl, fun row => ⟨?_, ?_, ?_, ?_, ?_⟩⟩ <;>
    intro h <;> simp [getTenantSettings, orDefault, h]

/-- C5 witness: a configured row with every column null gets the default
site name. -/
theorem c5_witness :
    (getTenantSettings (some ⟨none, none, none, none, none⟩)).siteName =
      "The Community Platform" :=
  (c5_tenant_settings_defaults.2 ⟨none, none, none, none, none⟩).1 rfl

theorem orDefault_ne_empty (v : Option String) (d : String) (hd : d ≠ "") :
    orDefault v d ≠ "" := by
  cases v with
  | none => simpa [orDefault] using hd
  | some s =>
    by_cases hs : s = "" <;> simp [orDefault, hs, hd]

/-- C10: each fallback default is applied not only when the row is absent
but also when the stored field is the empty string, so every field of the
returned settings is a non-empty string. -/
theorem c10_empty_fields_get_defaults :
    (∀ row : TenantRow,
      (row.site_name = some "" →
        (getTenantSettings (some row)).siteName = "The Community Platform") ∧
      (row.site_url = some "" →
        (getTenantSettings (some row)).siteUrl = "https://community.preciousplastic.com") ∧
      (row.message_sign_off = some "" →
        (getTenantSettings (some row)).messageSignOff = "One Army") ∧
      (row.email_from = some "" →
        (getTenantSettings (some row)).emailFrom = "hello@onearmy.earth") ∧
      (row.site_image = some "" →
        (getTenantSettings (some row)).siteImage =
          "https://community.preciousplastic.com/assets/img/one-army-logo.png")) ∧
    ∀ row : Option TenantRow,
      (getTenantSettings row).siteName ≠ "" ∧
      (getTenantSettings row).siteUrl ≠ "" ∧
      (getTenantSettings row).messageSignOff ≠ "" ∧
      (getTenantSettings row).emailFrom ≠ "" ∧
      (getTenantSettings row).siteImage ≠ "" := by
  constructor
  · intro row
    refine ⟨?_, ?_, ?_, ?_, ?_⟩ <;> intro h <;> simp [getTenantSettings, orDefault, h]
  · intro row
    exact ⟨orDefault_ne_empty _ _ (by decide), orDefault_ne_empty _ _ (by decide),
      orDefault_ne_empty _ _ (by decide), orDefault_ne_empty _ _ (by decide),
      orDefault_ne_empty _ _ (by decide)⟩

/-- C10 witness: a row storing the empty string for the site name gets the
default site name. -/
theorem c10_witness :
    (getTenantSettings (some ⟨some "", some "", some "", some "", some ""⟩)).siteName =
      "The Community Platform" :=
  (c10_empty_fields_get_defaults.1 ⟨some "", some "", some "", some "", some ""⟩).1 rfl

end MessageAction

namespace ResearchForm

/-- C7: for a form state with N non-empty image entries the number of
image input slots offered is min(N + 1, 10): exactly N + 1 when N < 9 and
exactly 10 when N ≥ 9. -/
theorem c7_image_slot_count {α : Type} (images : Option (List (Option α))) :
    numberOfImageInputsAvailable images = min (nonEmptyImages images + 1) 10 ∧
    (nonEmptyImages images < 9 →
      numberOfImageInputsAvailable images = nonEmptyImages images + 1) ∧
    (9 ≤ nonEmptyImages images → numberOfImageInputsAvailable images = 10) := by
  cases images with
  | none =>
    refine ⟨by simp [numberOfImageInputsAvailable, nonEmptyImages], ?_, ?_⟩ <;>
      intro h <;> simp [numberOfImageInputsAvailable, nonEmptyImages] at h ⊢
  | some l =>
    refine ⟨rfl, ?_, ?_⟩ <;> intro h <;>
      simp [numberOfImageInputsAvailable, nonEmptyImages] at h ⊢ <;> omega

/-- C7 witness: three entries with two non-empty give three slots; twelve
non-empty entries give ten slots. -/
theorem c7_witness :
    numberOfImageInputsAvailable (some [some 0, none, some 1]) = 3 ∧
    numberOfImageInputsAvailable (some (List.replicate 12 (some 0))) = 10 :=
  ⟨(c7_image_slot_count (some [some 0, none, some 1])).2.1 (by decide),
   (c7_image_slot_count (some (List.replicate 12 (some 0)))).2.2 (by decide)⟩

/-- C8: invoking the submit handler while the saving flag is set is a
no-op — the form state (including the count of remote upsert calls) is
unchanged, whatever the draft flag and the submit context. -/
theorem c8_submit_while_saving_is_noop (s : FormState) (draftFlag : Bool)
    (env : SubmitEnv) (h : s.isSaving = true) :
    onSubmit s draftFlag env = s := by
  simp [onSubmit, h]

/-- C8 witness: a state with the saving flag set is returned unchanged by
the submit handler. -/
theorem c8_witness :
    onSubmit ⟨true, false, none, 3, false, none⟩ false ⟨"my-research", .ok none⟩ =
      ⟨true, false, none, 3, false, none⟩ :=
  c8_submit_while_saving_is_noop ⟨true, false, none, 3, false, none⟩ false
    ⟨"my-research", .ok none⟩ rfl

end ResearchForm
